import Mathlib

/-!
Shallow embedding of the kanbrawl board store and its clients.

The authoritative mutation path is the `BoardStore` class
(src/unnamed/part_015): an in-memory `KanbrawlData` value, a backing file
rewritten wholesale by `save`, and a listener list notified by `emit`.
Each store operation is embedded as a pure function from the current data
(plus the nondeterministic inputs: the fresh id and the current timestamp)
to an `OpResult`: the returned value or error, the data after the call, and
the ordered list of side effects (`save` of a full board value, `emit` of a
domain event) the call performed.
-/

namespace Kanbrawl

/-- Embeds the `Column` type of src/unnamed/part_006: a named bucket with a
display-sort policy. `sortBy` ranges over "priority" | "created" | "updated",
`sortOrder` over "asc" | "desc". -/
structure Column where
  name : String
  sortBy : String
  sortOrder : String
deriving Repr, DecidableEq

/-- Embeds the `Task` type of src/unnamed/part_006. Timestamps are ISO 8601
strings, compared lexicographically as the source does. -/
structure Task where
  id : String
  title : String
  description : String
  column : String
  priority : String
  assignee : String
  createdAt : String
  updatedAt : String
deriving Repr, DecidableEq

/-- Embeds `KanbrawlData` of src/unnamed/part_006: the whole board, which is
also the unit of persistence. `theme` is an optional field. -/
structure KanbrawlData where
  columns : List Column
  tasks : List Task
  theme : Option String
deriving Repr, DecidableEq

/-- Embeds the `BoardEvent` union of src/unnamed/part_006. -/
inductive BoardEvent where
  | task_created (task : Task)
  | task_updated (task : Task)
  | task_moved (task : Task) (fromColumn : String)
  | task_deleted (taskId : String)
  | board_sync (board : KanbrawlData)
  | columns_updated (columns : List Column)
deriving Repr, DecidableEq

/-- The structured error cases thrown by the store
(src/unnamed/part_015). In the source these are `Error` values whose message
contains "not found" exactly in the `taskNotFound` case, which is what the
REST facade's status mapping keys on. -/
inductive StoreErr where
  | columnNotFound
  | taskNotFound
  | emptyColumns
  | emptyColumnNames
deriving Repr, DecidableEq

/-- One observable side effect of a store call: a wholesale rewrite of the
backing file with a full board value (`BoardStore.save`), or the delivery of
a domain event to the listeners (`BoardStore.emit`). -/
inductive Action where
  | save (data : KanbrawlData)
  | emit (event : BoardEvent)
deriving Repr, DecidableEq

/-- The outcome of one store operation: its return value or error, the board
data after the call, and the ordered side effects performed during it. -/
structure OpResult (α : Type) where
  result : Except StoreErr α
  data : KanbrawlData
  trace : List Action
deriving Repr

/-- A structural model of string `trim`: drop whitespace characters from
both ends. Defined over the character list so that it computes by kernel
reduction. -/
def trimString (s : String) : String :=
  ⟨((s.data.dropWhile Char.isWhitespace).reverse.dropWhile Char.isWhitespace).reverse⟩

/-- A structural model of string `toLowerCase`, character by character. -/
def toLowerString (s : String) : String :=
  ⟨s.data.map Char.toLower⟩

/-- Embeds the module-level `columnNames` helper of src/unnamed/part_015. -/
def columnNames (columns : List Column) : List String :=
  columns.map (fun c => c.name)

/-- Embeds `DEFAULT_COLUMNS` of src/unnamed/part_015. -/
def DEFAULT_COLUMNS : List Column :=
  [⟨"Todo", "priority", "asc"⟩,
   ⟨"In progress", "created", "asc"⟩,
   ⟨"Blocked", "created", "asc"⟩,
   ⟨"Done", "updated", "desc"⟩]

/-- Applies a function to the first list element satisfying the predicate,
leaving the rest untouched. This is how the source's in-place mutation of the
task object returned by `Array.prototype.find` acts on the task array. -/
def modifyFirst (p : Task → Bool) (f : Task → Task) : List Task → List Task
  | [] => []
  | t :: ts => if p t then f t :: ts else t :: modifyFirst p f ts

/-- Embeds `BoardStore.getTasks` (src/unnamed/part_015 lines 106-111); the
`column ? … : …` truthiness test means an absent or empty filter returns
every task. -/
def getTasks (data : KanbrawlData) (column : Option String) : List Task :=
  match column with
  | some c => if c.isEmpty then data.tasks else data.tasks.filter (fun t => t.column == c)
  | none => data.tasks

/-- Embeds `BoardStore.getTask` (src/unnamed/part_015 lines 113-116). -/
def getTask (data : KanbrawlData) (id : String) : Option Task :=
  data.tasks.find? (fun t => t.id == id)

/-- Embeds `BoardStore.createTask` (src/unnamed/part_015 lines 118-149).
`newId` stands for the fresh `uuidv4()`, `now` for `new Date().toISOString()`.
An omitted `column` resolves to `names[0]`; in the source a resolution on an
empty column list yields `undefined`, which fails the `includes` check, so it
is embedded as the `none` branch erroring out. Note the source performs no
validation of `title` whatsoever. -/
def createTask (data : KanbrawlData) (newId now : String) (title : String)
    (description column priority assignee : Option String) : OpResult Task :=
  let names := columnNames data.columns
  match column <|> names.head? with
  | none => { result := .error .columnNotFound, data := data, trace := [] }
  | some targetColumn =>
    if targetColumn ∈ names then
      let task : Task :=
        { id := newId, title := title, description := description.getD "",
          column := targetColumn, priority := priority.getD "P1",
          assignee := assignee.getD "", createdAt := now, updatedAt := now }
      let newData := { data with tasks := data.tasks ++ [task] }
      { result := .ok task, data := newData,
        trace := [Action.save newData, Action.emit (BoardEvent.task_created task)] }
    else { result := .error .columnNotFound, data := data, trace := [] }

/-- Embeds `BoardStore.moveTask` (src/unnamed/part_015 lines 151-174): checks
the target column, finds the task, mutates its `column` and `updatedAt`,
saves, then emits `task_moved` carrying the previous column name. -/
def moveTask (data : KanbrawlData) (now id targetColumn : String) : OpResult Task :=
  let names := columnNames data.columns
  if targetColumn ∈ names then
    match data.tasks.find? (fun t => t.id == id) with
    | none => { result := .error .taskNotFound, data := data, trace := [] }
    | some task =>
      let moved := { task with column := targetColumn, updatedAt := now }
      let newTasks := modifyFirst (fun t => t.id == id)
        (fun t => { t with column := targetColumn, updatedAt := now }) data.tasks
      let newData := { data with tasks := newTasks }
      { result := .ok moved, data := newData,
        trace := [Action.save newData,
                  Action.emit (BoardEvent.task_moved moved task.column)] }
  else { result := .error .columnNotFound, data := data, trace := [] }

/-- The optional-field record accepted by `BoardStore.updateTask`. -/
structure UpdateFields where
  title : Option String
  description : Option String
  priority : Option String
  assignee : Option String
deriving Repr, DecidableEq

/-- The per-task effect of `BoardStore.updateTask`: each supplied field
replaces the old value, absent fields are kept, and `updatedAt` is always
refreshed (src/unnamed/part_015 lines 190-195). -/
def applyFields (fields : UpdateFields) (now : String) (t : Task) : Task :=
  { t with
    title := fields.title.getD t.title,
    description := fields.description.getD t.description,
    priority := fields.priority.getD t.priority,
    assignee := fields.assignee.getD t.assignee,
    updatedAt := now }

/-- Embeds `BoardStore.updateTask` (src/unnamed/part_015 lines 176-199). -/
def updateTask (data : KanbrawlData) (now id : String) (fields : UpdateFields) :
    OpResult Task :=
  match data.tasks.find? (fun t => t.id == id) with
  | none => { result := .error .taskNotFound, data := data, trace := [] }
  | some task =>
    let updated := applyFields fields now task
    let newTasks := modifyFirst (fun t => t.id == id) (applyFields fields now) data.tasks
    let newData := { data with tasks := newTasks }
    { result := .ok updated, data := newData,
      trace := [Action.save newData, Action.emit (BoardEvent.task_updated updated)] }

/-- Embeds `BoardStore.deleteTask` (src/unnamed/part_015 lines 201-210):
`findIndex` plus `splice(index, 1)` removes the first task with the id. -/
def deleteTask (data : KanbrawlData) (id : String) : OpResult Unit :=
  if (data.tasks.find? (fun t => t.id == id)).isSome then
    let newData := { data with tasks := data.tasks.eraseP (fun t => t.id == id) }
    { result := .ok (), data := newData,
      trace := [Action.save newData, Action.emit (BoardEvent.task_deleted id)] }
  else { result := .error .taskNotFound, data := data, trace := [] }

/-- The input shape of `BoardStore.updateColumns`: callers may omit the sort
fields, which the source defaults with `?? 'created'` and `?? 'asc'`. -/
structure ColumnInput where
  name : String
  sortBy : Option String
  sortOrder : Option String
deriving Repr, DecidableEq

/-- The per-column normalisation step of `BoardStore.updateColumns`
(src/unnamed/part_015 lines 217-223): trim the name, default the sort. -/
def processColumn (c : ColumnInput) : Column :=
  { name := trimString c.name, sortBy := c.sortBy.getD "created",
    sortOrder := c.sortOrder.getD "asc" }

/-- Deduplication by name keeping the first occurrence, as the `Set`-based
filter of src/unnamed/part_015 lines 229-235 does. -/
def dedupeColumns : List Column → List String → List Column
  | [], _ => []
  | c :: cs, seen =>
    if c.name ∈ seen then dedupeColumns cs seen
    else c :: dedupeColumns cs (c.name :: seen)

/-- The removed-name computation of `BoardStore.updateColumns`
(src/unnamed/part_015 lines 237-240): the old column names that do not
appear in the new set. -/
def removedColumnNames (oldColumns newColumns : List Column) : List String :=
  (columnNames oldColumns).filter (fun n => !((columnNames newColumns).contains n))

/-- Embeds `BoardStore.updateColumns` (src/unnamed/part_015 lines 212-257):
reject an empty input, trim and drop empty names, reject if nothing is left,
deduplicate keeping first occurrences, reassign every task in a removed
column to the new first column refreshing its `updatedAt`, then save and emit
a single `columns_updated` event. -/
def updateColumns (data : KanbrawlData) (now : String) (columns : List ColumnInput) :
    OpResult (List Column) :=
  if columns.isEmpty then
    { result := .error .emptyColumns, data := data, trace := [] }
  else
    match (columns.map processColumn).filter (fun c => 0 < c.name.length) with
    | [] => { result := .error .emptyColumnNames, data := data, trace := [] }
    | p :: ps =>
      let unique := p :: dedupeColumns ps [p.name]
      let removedNames := removedColumnNames data.columns unique
      let newTasks :=
        if removedNames.isEmpty then data.tasks
        else data.tasks.map (fun t =>
          if removedNames.contains t.column then
            { t with column := p.name, updatedAt := now }
          else t)
      let newData := { data with columns := unique, tasks := newTasks }
      { result := .ok unique, data := newData,
        trace := [Action.save newData,
                  Action.emit (BoardEvent.columns_updated unique)] }

/-! ### Persistence: the on-file shape, `load` and `save` -/

/-- A column as it may appear in the backing file: either the legacy bare
string shape, or the structured shape in which the sort fields may be
missing (src/unnamed/part_015 lines 14-33 handles both). -/
inductive StoredColumn where
  | legacy (name : String)
  | structured (name : String) (sortBy : Option String) (sortOrder : Option String)
deriving Repr, DecidableEq

/-- The parsed shape of the backing file (`Partial<KanbrawlData>` with
possibly-legacy columns), as consumed by `BoardStore.load`. -/
structure StoredData where
  columns : Option (List StoredColumn)
  tasks : Option (List Task)
  theme : Option String
deriving Repr, DecidableEq

/-- Embeds `migrateColumn` (src/unnamed/part_015 lines 14-33): a legacy bare
name gets a sort policy inferred from the conventional names "todo" and
"done" (case-insensitively), a structured column gets its missing sort
fields defaulted. -/
def migrateColumn : StoredColumn → Column
  | .legacy name =>
    if toLowerString name == "todo" then
      { name := name, sortBy := "priority", sortOrder := "asc" }
    else if toLowerString name == "done" then
      { name := name, sortBy := "updated", sortOrder := "desc" }
    else { name := name, sortBy := "created", sortOrder := "asc" }
  | .structured name sb so =>
    { name := name, sortBy := sb.getD "created", sortOrder := so.getD "asc" }

/-- Embeds the existing-file branch of `BoardStore.load`
(src/unnamed/part_015 lines 50-63): migrate stored columns (defaulting to
`DEFAULT_COLUMNS` when the key is absent), default tasks to `[]`, and keep
the theme only when it is present and truthy (a present empty string is
dropped by the `parsed.theme ?` test). -/
def loadData (stored : StoredData) : KanbrawlData :=
  { columns :=
      match stored.columns with
      | some cs => cs.map migrateColumn
      | none => DEFAULT_COLUMNS,
    tasks := stored.tasks.getD [],
    theme :=
      match stored.theme with
      | some t => if t.isEmpty then none else some t
      | none => none }

/-- Embeds what `BoardStore.save` serialises (src/unnamed/part_015 lines
73-79): the in-memory board is always current-shape, so every column is
written in the structured shape with both sort fields present, and the theme
key is written exactly when the in-memory board has one. -/
def saveData (data : KanbrawlData) : StoredData :=
  { columns := some (data.columns.map
      (fun c => StoredColumn.structured c.name (some c.sortBy) (some c.sortOrder))),
    tasks := some data.tasks,
    theme := data.theme }

/-! ### The tool-call facade: the list_tasks handler -/

/-- The ordering the `list_tasks` handler passes to `Array.prototype.sort`
(src/src/server/tools.ts lines 136-140) read as a weak order: task `a` may
come before task `b` iff the comparator returns a non-positive value, i.e.
`a.priority` is smaller, or the priorities tie and `a.createdAt ≤
b.createdAt` (string comparison, which on the "P0"/"P1"/"P2" enumeration and
ISO 8601 timestamps coincides with the source's `localeCompare`). -/
def taskLe (a b : Task) : Bool :=
  if a.priority = b.priority then a.createdAt ≤ b.createdAt else a.priority < b.priority

/-- The filtering pipeline of the `list_tasks` handler
(src/src/server/tools.ts lines 125-133): the tasks of the target column,
then the optional exact priority filter and the optional case-insensitive
assignee filter; the source's `if (priority)` and `if (assignee)` truthiness
tests skip a filter given as the empty string. -/
def filteredTasks (data : KanbrawlData) (targetColumn : String)
    (priority assignee : Option String) : List Task :=
  let tasks1 := getTasks data (some targetColumn)
  let tasks2 :=
    match priority with
    | some p => if p.isEmpty then tasks1 else tasks1.filter (fun t => t.priority == p)
    | none => tasks1
  match assignee with
  | some a =>
    if a.isEmpty then tasks2
    else tasks2.filter (fun t => toLowerString t.assignee == toLowerString a)
  | none => tasks2

/-- Embeds the `list_tasks` handler of `registerTools`
(src/src/server/tools.ts lines 111-155). `capturedNames` is the
`columnNames` snapshot taken once at registration (line 19): the default
column is its first element, while the existence check consults the live
store. JavaScript's sort with a comparator is a stable sort, embedded as
`List.mergeSort` with the weak order `taskLe`. -/
def listTasks (capturedNames : List String) (data : KanbrawlData)
    (column priority assignee : Option String) (max : Option Nat) :
    Except String (List Task) :=
  match column <|> capturedNames.head? with
  | none => .error "Column does not exist."
  | some targetColumn =>
    if targetColumn ∈ columnNames data.columns then
      let sorted := (filteredTasks data targetColumn priority assignee).mergeSort taskLe
      .ok (sorted.take (max.getD 10))
    else .error "Column does not exist."

/-! ### The REST facade (src/unnamed/part_017) -/

/-- A REST response: a JSON task payload or an error status. The source maps
a store error whose message contains "not found" to 404 and any other store
error to 400. -/
inductive ApiResponse where
  | ok (task : Task)
  | err (status : Nat)
deriving Repr, DecidableEq

/-- The status mapping of the PATCH and DELETE handlers
(src/unnamed/part_017 lines 87-89): only the task-not-found messages contain
"not found". -/
def statusFor (e : StoreErr) : Nat :=
  match e with
  | .taskNotFound => 404
  | _ => 400

/-- The request body accepted by PATCH /tasks/:id. -/
structure PatchBody where
  title : Option String
  description : Option String
  column : Option String
  priority : Option String
  assignee : Option String
deriving Repr, DecidableEq

/-- Whether the body supplies any non-column field
(src/unnamed/part_017 lines 63-68). -/
def hasFieldChange (body : PatchBody) : Bool :=
  body.title.isSome || body.description.isSome || body.priority.isSome || body.assignee.isSome

/-- Embeds the PATCH /tasks/:id handler (src/unnamed/part_017 lines 45-91):
when the body carries a column the task is moved first; then, when any other
field is supplied, `updateTask` is applied; a body with only a column change
answers with the task read back. A thrown store error short-circuits to the
catch block with the mapped status. `nowMove` and `nowUpdate` are the
timestamps of the two store calls, in invocation order. -/
def apiPatchTask (data : KanbrawlData) (nowMove nowUpdate id : String)
    (body : PatchBody) : ApiResponse × KanbrawlData × List Action :=
  let afterMove : Except StoreErr (KanbrawlData × List Action) :=
    match body.column with
    | some col =>
      let r := moveTask data nowMove id col
      match r.result with
      | .error e => .error e
      | .ok _ => .ok (r.data, r.trace)
    | none => .ok (data, [])
  match afterMove with
  | .error e => (.err (statusFor e), data, [])
  | .ok (data1, trace1) =>
    if hasFieldChange body then
      let r := updateTask data1 nowUpdate id
        ⟨body.title, body.description, body.priority, body.assignee⟩
      match r.result with
      | .error e => (.err (statusFor e), r.data, trace1 ++ r.trace)
      | .ok t => (.ok t, r.data, trace1 ++ r.trace)
    else
      match getTask data1 id with
      | some t => (.ok t, data1, trace1)
      | none => (.err 404, data1, trace1)

/-- The request body accepted by POST /tasks. -/
structure CreateBody where
  title : Option String
  description : Option String
  column : Option String
  priority : Option String
  assignee : Option String
deriving Repr, DecidableEq

/-- Embeds the POST /tasks handler (src/unnamed/part_017 lines 13-42): a
missing, empty, or whitespace-only title is rejected with 400 before the
store is touched; otherwise the store's `createTask` is called with the
trimmed title, description, and assignee. -/
def apiCreateTask (data : KanbrawlData) (newId now : String) (body : CreateBody) :
    ApiResponse × KanbrawlData × List Action :=
  match body.title with
  | none => (.err 400, data, [])
  | some title =>
    if (trimString title).isEmpty then (.err 400, data, [])
    else
      let r := createTask data newId now (trimString title) (body.description.map trimString)
        body.column body.priority (body.assignee.map trimString)
      match r.result with
      | .error _ => (.err 400, r.data, r.trace)
      | .ok t => (.ok t, r.data, r.trace)

/-! ### The CLI direct-call facade (src/src/cli/commands/task.ts) -/

/-- The options record of the `kanbrawl task` command. -/
structure TaskOptions where
  description : Option String
  column : Option String
  priority : Option String
  assignee : Option String
deriving Repr, DecidableEq

/-- The priority-digit mapping of `taskAction`
(src/src/cli/commands/task.ts lines 14-16): a truthy priority option is
prefixed with "P", a missing or empty one is left undefined. -/
def cliPriority (p : Option String) : Option String :=
  match p with
  | some p => if p.isEmpty then none else some ("P" ++ p)
  | none => none

/-- Embeds the `--update` branch of `taskAction`
(src/src/cli/commands/task.ts lines 12-49): map the priority digit to a
"P"-prefixed level when truthy, find the first task whose title matches
case-insensitively, call the store's `updateTask` with the supplied fields
(never the title), and only afterwards, when a truthy column option is
present, call `moveTask`. `nowUpdate` and `nowMove` are the timestamps of
the two store calls, in invocation order. -/
def cliTaskUpdate (data : KanbrawlData) (nowUpdate nowMove : String)
    (title : String) (options : TaskOptions) :
    Except StoreErr Task × KanbrawlData × List Action :=
  match data.tasks.find? (fun t => toLowerString t.title == toLowerString title) with
  | none => (.error .taskNotFound, data, [])
  | some existing =>
    let r1 := updateTask data nowUpdate existing.id
      ⟨none, options.description, cliPriority options.priority, options.assignee⟩
    match r1.result with
    | .error e => (.error e, r1.data, r1.trace)
    | .ok updated =>
      match options.column with
      | some col =>
        if col.isEmpty then (.ok updated, r1.data, r1.trace)
        else
          let r2 := moveTask r1.data nowMove existing.id col
          match r2.result with
          | .error e => (.error e, r2.data, r1.trace ++ r2.trace)
          | .ok _ => (.ok updated, r2.data, r1.trace ++ r2.trace)
      | none => (.ok updated, r1.data, r1.trace)

/-! ### Observer reconnection (src/unnamed/part_008 and part_011) -/

/-- `BASE_RECONNECT_DELAY` of the web client (src/unnamed/part_008 line 515);
the extension client hard-codes the same 1000 ms base. -/
def BASE_RECONNECT_DELAY : Nat := 1000

/-- `MAX_RECONNECT_DELAY` of the web client (src/unnamed/part_008 line 511);
the extension client's `maxReconnectDelay` is the same 30000 ms. -/
def MAX_RECONNECT_DELAY : Nat := 30000

/-- Embeds `scheduleReconnect` (src/unnamed/part_008 lines 954-967 and
src/unnamed/part_011 lines 186-198): the reconnect timer is armed with the
current `reconnectDelay`, which is then doubled and capped. Returns the
scheduled delay and the stored delay after the call. -/
def scheduleReconnect (reconnectDelay : Nat) : Nat × Nat :=
  (reconnectDelay, min (reconnectDelay * 2) MAX_RECONNECT_DELAY)

/-- The observer-side replica state that the reconnect logic touches. -/
structure ClientState where
  board : KanbrawlData
  connected : Bool
  reconnectDelay : Nat
deriving Repr, DecidableEq

/-- Embeds the `board_sync` listener of `connectSSE`
(src/unnamed/part_008 lines 1014-1021): replace the replica, mark the
channel connected, and reset the backoff delay to its base value. -/
def onBoardSync (s : ClientState) (board : KanbrawlData) : ClientState :=
  { s with board := board, connected := true, reconnectDelay := BASE_RECONNECT_DELAY }

/-- The stored `reconnectDelay` just before the n-th consecutive
`scheduleReconnect` call, starting from the base delay. -/
def nthReconnectDelay : Nat → Nat
  | 0 => BASE_RECONNECT_DELAY
  | n + 1 => (scheduleReconnect (nthReconnectDelay n)).2

/-! ### Sample data used by concrete witnesses -/

/-- A task as the spec's creation scenario produces it. -/
def sampleTask : Task :=
  { id := "t1", title := "Fix bug", description := "", column := "Todo",
    priority := "P1", assignee := "", createdAt := "2024-01-01T00:00:00Z",
    updatedAt := "2024-01-01T00:00:00Z" }

/-- A small reachable board: the default columns plus one task. -/
def sampleBoard : KanbrawlData :=
  { columns := DEFAULT_COLUMNS, tasks := [sampleTask], theme := some "dark" }

/-! ### Helper lemmas -/

theorem find?_modifyFirst (p : Task → Bool) (f : Task → Task)
    (hf : ∀ t, p (f t) = p t) :
    ∀ l : List Task, (modifyFirst p f l).find? p = (l.find? p).map f := by
  intro l
  induction l with
  | nil => rfl
  | cons t ts ih =>
    by_cases hp : p t
    · simp [modifyFirst, List.find?, hp, hf]
    · simp [modifyFirst, List.find?, hp, ih]

theorem taskLe_trans (a b c : Task) (hab : taskLe a b = true) (hbc : taskLe b c = true) :
    taskLe a c = true := by
  simp only [taskLe] at *
  by_cases h1 : a.priority = b.priority
  · rw [if_pos h1] at hab
    by_cases h2 : b.priority = c.priority
    · rw [if_pos h2] at hbc
      rw [if_pos (h1.trans h2)]
      simp only [decide_eq_true_eq] at *
      exact le_trans hab hbc
    · rw [if_neg h2] at hbc
      simp only [decide_eq_true_eq] at hbc
      have hlt : a.priority < c.priority := lt_of_le_of_lt (le_of_eq h1) hbc
      rw [if_neg (ne_of_lt hlt)]
      simp only [decide_eq_true_eq]
      exact hlt
  · rw [if_neg h1] at hab
    simp only [decide_eq_true_eq] at hab
    by_cases h2 : b.priority = c.priority
    · have hlt : a.priority < c.priority := lt_of_lt_of_le hab (le_of_eq h2)
      rw [if_neg (ne_of_lt hlt)]
      simp only [decide_eq_true_eq]
      exact hlt
    · rw [if_neg h2] at hbc
      simp only [decide_eq_true_eq] at hbc
      have hlt : a.priority < c.priority := lt_trans hab hbc
      rw [if_neg (ne_of_lt hlt)]
      simp only [decide_eq_true_eq]
      exact hlt

theorem taskLe_total (a b : Task) : taskLe a b || taskLe b a := by
  simp only [taskLe]
  by_cases h : a.priority = b.priority
  · rw [if_pos h, if_pos h.symm]
    simp only [Bool.or_eq_true, decide_eq_true_eq]
    exact le_total _ _
  · rw [if_neg h, if_neg (Ne.symm h)]
    simp only [Bool.or_eq_true, decide_eq_true_eq]
    exact lt_or_gt_of_ne h

theorem moveTask_ok_facts (data : KanbrawlData) (now id col : String) (t : Task)
    (h : (moveTask data now id col).result = Except.ok t) :
    t.updatedAt = now ∧ t.id = id ∧
    getTask (moveTask data now id col).data id = some t ∧
    ∃ fc, (moveTask data now id col).trace =
      [Action.save (moveTask data now id col).data,
       Action.emit (BoardEvent.task_moved t fc)] := by
  simp only [moveTask] at h ⊢
  by_cases hmem : col ∈ columnNames data.columns
  · simp only [if_pos hmem] at h ⊢
    rcases hfind : data.tasks.find? (fun x => x.id == id) with _ | task
    · simp [hfind] at h
    · simp only [hfind] at h ⊢
      simp only [Except.ok.injEq] at h
      subst h
      have hid : task.id = id := by
        have hp := List.find?_some hfind
        simpa using hp
      refine ⟨rfl, hid, ?_, task.column, rfl⟩
      simp only [getTask]
      rw [find?_modifyFirst (fun x => x.id == id)
        (fun x => { x with column := col, updatedAt := now }) (fun x => rfl)]
      rw [hfind]
      rfl
  · simp [if_neg hmem] at h

theorem updateTask_ok_facts (data : KanbrawlData) (now id : String)
    (fields : UpdateFields) (t : Task)
    (h : (updateTask data now id fields).result = Except.ok t) :
    t.updatedAt = now ∧
    (updateTask data now id fields).trace =
      [Action.save (updateTask data now id fields).data,
       Action.emit (BoardEvent.task_updated t)] := by
  simp only [updateTask] at h ⊢
  rcases hfind : data.tasks.find? (fun x => x.id == id) with _ | task
  · simp [hfind] at h
  · simp only [hfind] at h ⊢
    simp only [Except.ok.injEq] at h
    subst h
    exact ⟨rfl, rfl⟩

/-! ### Claim theorems -/

/-- C5: a `createTask` call with a non-empty title and the column, priority,
and assignee arguments omitted, on a board whose first column is named
"Todo", returns a task with `column = "Todo"`, `priority = "P1"`,
`assignee = ""`, and `updatedAt` equal to `createdAt`. -/
theorem createTask_defaults (data : KanbrawlData) (c0 : Column) (rest : List Column)
    (newId now title : String) (description : Option String)
    (hcols : data.columns = c0 :: rest) (hname : c0.name = "Todo")
    (_htitle : title ≠ "") :
    ∃ t, (createTask data newId now title description none none none).result = Except.ok t ∧
      t.column = "Todo" ∧ t.priority = "P1" ∧ t.assignee = "" ∧
      t.updatedAt = t.createdAt := by
  simp only [createTask, hcols, columnNames, List.map_cons, List.head?_cons,
    Option.none_orElse, hname]
  rw [if_pos (List.mem_cons_self _ _)]
  exact ⟨_, rfl, rfl, rfl, rfl, rfl⟩

/-- Witness for C5 at a concrete board. -/
theorem createTask_defaults_witness :
    ∃ t, (createTask { columns := DEFAULT_COLUMNS, tasks := [], theme := none }
        "id-1" "2024-05-05T12:00:00Z" "Fix bug" none none none none).result = Except.ok t ∧
      t.column = "Todo" ∧ t.priority = "P1" ∧ t.assignee = "" ∧
      t.updatedAt = t.createdAt :=
  createTask_defaults { columns := DEFAULT_COLUMNS, tasks := [], theme := none }
    ⟨"Todo", "priority", "asc"⟩
    [⟨"In progress", "created", "asc"⟩, ⟨"Blocked", "created", "asc"⟩,
     ⟨"Done", "updated", "desc"⟩]
    "id-1" "2024-05-05T12:00:00Z" "Fix bug" none rfl rfl (by decide)

/-- C10: `updateTask` with an empty field record on an existing task id
succeeds, leaves title, description, priority, and assignee unchanged, still
refreshes `updatedAt`, and performs a save followed by a `task_updated`
event — an empty field update is an observable mutation, not a no-op. -/
theorem updateTask_no_fields (data : KanbrawlData) (now id : String) (task : Task)
    (hfind : data.tasks.find? (fun t => t.id == id) = some task) :
    ∃ t1, (updateTask data now id ⟨none, none, none, none⟩).result = Except.ok t1 ∧
      t1.title = task.title ∧ t1.description = task.description ∧
      t1.priority = task.priority ∧ t1.assignee = task.assignee ∧
      t1.updatedAt = now ∧
      (updateTask data now id ⟨none, none, none, none⟩).trace =
        [Action.save (updateTask data now id ⟨none, none, none, none⟩).data,
         Action.emit (BoardEvent.task_updated t1)] := by
  simp only [updateTask, hfind]
  exact ⟨_, rfl, rfl, rfl, rfl, rfl, rfl, rfl⟩

/-- Witness for C10 at a concrete board. -/
theorem updateTask_no_fields_witness :
    ∃ t1, (updateTask sampleBoard "2024-02-02T00:00:00Z" "t1" ⟨none, none, none, none⟩).result =
        Except.ok t1 ∧
      t1.title = sampleTask.title ∧ t1.description = sampleTask.description ∧
      t1.priority = sampleTask.priority ∧ t1.assignee = sampleTask.assignee ∧
      t1.updatedAt = "2024-02-02T00:00:00Z" ∧
      (updateTask sampleBoard "2024-02-02T00:00:00Z" "t1" ⟨none, none, none, none⟩).trace =
        [Action.save (updateTask sampleBoard "2024-02-02T00:00:00Z" "t1"
            ⟨none, none, none, none⟩).data,
         Action.emit (BoardEvent.task_updated t1)] :=
  updateTask_no_fields sampleBoard "2024-02-02T00:00:00Z" "t1" sampleTask (by decide)

/-- C8: persisting a board with `save` and reloading it with `load`
(including the legacy-shape column migration) yields an identical board —
column order, every column's name, sortBy and sortOrder, every task's
fields, and the theme are preserved. The hypothesis excludes an empty-string
theme, which no reachable board carries. -/
theorem load_save_roundtrip (b : KanbrawlData)
    (htheme : ∀ t, b.theme = some t → t.isEmpty = false) :
    loadData (saveData b) = b := by
  obtain ⟨cols, tasks, theme⟩ := b
  simp only [loadData, saveData, List.map_map, Option.getD_some]
  have hcols : (migrateColumn ∘ fun c : Column =>
      StoredColumn.structured c.name (some c.sortBy) (some c.sortOrder)) = id :=
    funext fun c => rfl
  rw [hcols, List.map_id]
  cases theme with
  | none => rfl
  | some t =>
    have ht := htheme t rfl
    simp [ht]

/-- Witness for C8 at a concrete board. -/
theorem load_save_roundtrip_witness :
    loadData (saveData sampleBoard) = sampleBoard :=
  load_save_roundtrip sampleBoard (by intro t ht; cases ht; rfl)

/-- C9: under repeated channel failures starting from the base delay, the
n-th scheduled retry delay is `min (1000 * 2 ^ n) 30000` — concretely 1s,
2s, 4s, 8s, 16s, 30s, 30s, … — and the `board_sync` listener resets the
stored delay to the 1s base. -/
theorem reconnect_backoff_sequence :
    (∀ n, (scheduleReconnect (nthReconnectDelay n)).1 =
        min (BASE_RECONNECT_DELAY * 2 ^ n) MAX_RECONNECT_DELAY) ∧
    (List.range 7).map (fun n => (scheduleReconnect (nthReconnectDelay n)).1) =
      [1000, 2000, 4000, 8000, 16000, 30000, 30000] ∧
    ∀ (s : ClientState) (board : KanbrawlData),
      (onBoardSync s board).reconnectDelay = BASE_RECONNECT_DELAY := by
  refine ⟨?_, by decide, fun s board => rfl⟩
  intro n
  induction n with
  | zero => decide
  | succ n ih =>
    simp only [scheduleReconnect, nthReconnectDelay] at ih ⊢
    rw [ih, pow_succ, BASE_RECONNECT_DELAY, MAX_RECONNECT_DELAY] at *
    generalize (2 : Nat) ^ n = k at *
    omega

/-- C1: every successful mutating store operation performs exactly one
wholesale save of its full new board state followed by exactly one domain
event emission — the save precedes the emit in the effect trace and both
happen before the call returns, so no event is ever emitted for a state
that has not yet been written. -/
theorem store_persists_before_emit :
    (∀ (data : KanbrawlData) (newId now title : String)
        (description column priority assignee : Option String) (t : Task),
      (createTask data newId now title description column priority assignee).result =
        Except.ok t →
      (createTask data newId now title description column priority assignee).trace =
        [Action.save (createTask data newId now title description column priority assignee).data,
         Action.emit (BoardEvent.task_created t)]) ∧
    (∀ (data : KanbrawlData) (now id targetColumn : String) (t : Task),
      (moveTask data now id targetColumn).result = Except.ok t →
      ∃ fromColumn,
        (moveTask data now id targetColumn).trace =
          [Action.save (moveTask data now id targetColumn).data,
           Action.emit (BoardEvent.task_moved t fromColumn)]) ∧
    (∀ (data : KanbrawlData) (now id : String) (fields : UpdateFields) (t : Task),
      (updateTask data now id fields).result = Except.ok t →
      (updateTask data now id fields).trace =
        [Action.save (updateTask data now id fields).data,
         Action.emit (BoardEvent.task_updated t)]) ∧
    (∀ (data : KanbrawlData) (id : String),
      (deleteTask data id).result = Except.ok () →
      (deleteTask data id).trace =
        [Action.save (deleteTask data id).data,
         Action.emit (BoardEvent.task_deleted id)]) ∧
    (∀ (data : KanbrawlData) (now : String) (cols : List ColumnInput) (l : List Column),
      (updateColumns data now cols).result = Except.ok l →
      (updateColumns data now cols).trace =
        [Action.save (updateColumns data now cols).data,
         Action.emit (BoardEvent.columns_updated l)]) := by
  refine ⟨?_, ?_, ?_, ?_, ?_⟩
  · intro data newId now title description column priority assignee t h
    simp only [createTask] at h ⊢
    rcases hcol : column <|> (columnNames data.columns).head? with _ | tc
    · simp [hcol] at h
    · simp only [hcol] at h ⊢
      by_cases hmem : tc ∈ columnNames data.columns
      · simp only [if_pos hmem] at h ⊢
        simp only [Except.ok.injEq] at h
        subst h
        rfl
      · simp [if_neg hmem] at h
  · intro data now id targetColumn t h
    simp only [moveTask] at h ⊢
    by_cases hmem : targetColumn ∈ columnNames data.columns
    · simp only [if_pos hmem] at h ⊢
      rcases hfind : data.tasks.find? (fun t => t.id == id) with _ | task
      · simp [hfind] at h
      · simp only [hfind] at h ⊢
        simp only [Except.ok.injEq] at h
        subst h
        exact ⟨task.column, rfl⟩
    · simp [if_neg hmem] at h
  · intro data now id fields t h
    simp only [updateTask] at h ⊢
    rcases hfind : data.tasks.find? (fun t => t.id == id) with _ | task
    · simp [hfind] at h
    · simp only [hfind] at h ⊢
      simp only [Except.ok.injEq] at h
      subst h
      rfl
  · intro data id h
    simp only [deleteTask] at h ⊢
    by_cases hfind : (data.tasks.find? (fun t => t.id == id)).isSome
    · simp only [if_pos hfind] at h ⊢
    · rw [if_neg hfind] at h
      simp at h
  · intro data now cols l h
    simp only [updateColumns] at h ⊢
    by_cases hempty : cols.isEmpty
    · rw [if_pos hempty] at h
      simp at h
    · simp only [if_neg hempty] at h ⊢
      rcases hf : (cols.map processColumn).filter (fun c => 0 < c.name.length) with _ | ⟨p, ps⟩
      · simp [hf] at h
      · simp only [hf] at h ⊢
        simp only [Except.ok.injEq] at h
        subst h
        rfl

/-- Witness for C1: the five conjuncts applied at a concrete board. -/
theorem store_persists_before_emit_witness :
    ((createTask sampleBoard "t3" "2024-04-04T00:00:00Z" "A task" none none none none).trace =
      [Action.save (createTask sampleBoard "t3" "2024-04-04T00:00:00Z" "A task"
          none none none none).data,
       Action.emit (BoardEvent.task_created
         { id := "t3", title := "A task", description := "", column := "Todo",
           priority := "P1", assignee := "", createdAt := "2024-04-04T00:00:00Z",
           updatedAt := "2024-04-04T00:00:00Z" })]) ∧
    (∃ fromColumn,
      (moveTask sampleBoard "2024-04-04T00:00:01Z" "t1" "Done").trace =
        [Action.save (moveTask sampleBoard "2024-04-04T00:00:01Z" "t1" "Done").data,
         Action.emit (BoardEvent.task_moved
           { sampleTask with column := "Done", updatedAt := "2024-04-04T00:00:01Z" }
           fromColumn)]) ∧
    ((deleteTask sampleBoard "t1").trace =
      [Action.save (deleteTask sampleBoard "t1").data,
       Action.emit (BoardEvent.task_deleted "t1")]) ∧
    ((updateColumns sampleBoard "2024-04-04T00:00:02Z" [⟨"Next", none, none⟩]).trace =
      [Action.save (updateColumns sampleBoard "2024-04-04T00:00:02Z"
          [⟨"Next", none, none⟩]).data,
       Action.emit (BoardEvent.columns_updated [⟨"Next", "created", "asc"⟩])]) :=
  ⟨store_persists_before_emit.1 sampleBoard "t3" "2024-04-04T00:00:00Z" "A task"
      none none none none
      { id := "t3", title := "A task", description := "", column := "Todo",
        priority := "P1", assignee := "", createdAt := "2024-04-04T00:00:00Z",
        updatedAt := "2024-04-04T00:00:00Z" } (by rfl),
   store_persists_before_emit.2.1 sampleBoard "2024-04-04T00:00:01Z" "t1" "Done"
      { sampleTask with column := "Done", updatedAt := "2024-04-04T00:00:01Z" } (by rfl),
   store_persists_before_emit.2.2.2.1 sampleBoard "t1" (by rfl),
   store_persists_before_emit.2.2.2.2 sampleBoard "2024-04-04T00:00:02Z"
      [⟨"Next", none, none⟩] [⟨"Next", "created", "asc"⟩] (by rfl)⟩

/-- C2: every store operation that fails leaves the board exactly as it
was — the returned data equals the input data — and performs no effect at
all: nothing is saved to the file and no event is emitted. -/
theorem store_error_all_or_nothing :
    (∀ (data : KanbrawlData) (newId now title : String)
        (description column priority assignee : Option String) (e : StoreErr),
      (createTask data newId now title description column priority assignee).result =
        Except.error e →
      (createTask data newId now title description column priority assignee).data = data ∧
      (createTask data newId now title description column priority assignee).trace = []) ∧
    (∀ (data : KanbrawlData) (now id targetColumn : String) (e : StoreErr),
      (moveTask data now id targetColumn).result = Except.error e →
      (moveTask data now id targetColumn).data = data ∧
      (moveTask data now id targetColumn).trace = []) ∧
    (∀ (data : KanbrawlData) (now id : String) (fields : UpdateFields) (e : StoreErr),
      (updateTask data now id fields).result = Except.error e →
      (updateTask data now id fields).data = data ∧
      (updateTask data now id fields).trace = []) ∧
    (∀ (data : KanbrawlData) (id : String) (e : StoreErr),
      (deleteTask data id).result = Except.error e →
      (deleteTask data id).data = data ∧ (deleteTask data id).trace = []) ∧
    (∀ (data : KanbrawlData) (now : String) (cols : List ColumnInput) (e : StoreErr),
      (updateColumns data now cols).result = Except.error e →
      (updateColumns data now cols).data = data ∧
      (updateColumns data now cols).trace = []) := by
  refine ⟨?_, ?_, ?_, ?_, ?_⟩
  · intro data newId now title description column priority assignee e h
    simp only [createTask] at h ⊢
    rcases hcol : column <|> (columnNames data.columns).head? with _ | tc
    · simp only [hcol] at h ⊢
      exact ⟨by simp, by simp⟩
    · simp only [hcol] at h ⊢
      by_cases hmem : tc ∈ columnNames data.columns
      · simp [if_pos hmem] at h
      · simp only [if_neg hmem] at h ⊢
        exact ⟨by simp, by simp⟩
  · intro data now id targetColumn e h
    simp only [moveTask] at h ⊢
    by_cases hmem : targetColumn ∈ columnNames data.columns
    · simp only [if_pos hmem] at h ⊢
      rcases hfind : data.tasks.find? (fun t => t.id == id) with _ | task
      · simp only [hfind] at h ⊢
        exact ⟨by simp, by simp⟩
      · simp [hfind] at h
    · simp only [if_neg hmem] at h ⊢
      exact ⟨by simp, by simp⟩
  · intro data now id fields e h
    simp only [updateTask] at h ⊢
    rcases hfind : data.tasks.find? (fun t => t.id == id) with _ | task
    · simp only [hfind] at h ⊢
      exact ⟨by simp, by simp⟩
    · simp [hfind] at h
  · intro data id e h
    simp only [deleteTask] at h ⊢
    by_cases hfind : (data.tasks.find? (fun t => t.id == id)).isSome
    · rw [if_pos hfind] at h
      simp at h
    · simp only [if_neg hfind] at h ⊢
      exact ⟨by simp, by simp⟩
  · intro data now cols e h
    simp only [updateColumns] at h ⊢
    by_cases hempty : cols.isEmpty
    · simp only [if_pos hempty] at h ⊢
      exact ⟨by simp, by simp⟩
    · simp only [if_neg hempty] at h ⊢
      rcases hf : (cols.map processColumn).filter (fun c => 0 < c.name.length) with _ | ⟨p, ps⟩
      · simp only [hf] at h ⊢
        exact ⟨by simp, by simp⟩
      · simp [hf] at h

/-- Witness for C2: failing calls of each kind at a concrete board. -/
theorem store_error_all_or_nothing_witness :
    ((createTask sampleBoard "t4" "2024-04-05T00:00:00Z" "A task" none (some "Nope")
        none none).data = sampleBoard ∧
      (createTask sampleBoard "t4" "2024-04-05T00:00:00Z" "A task" none (some "Nope")
        none none).trace = []) ∧
    ((moveTask sampleBoard "2024-04-05T00:00:00Z" "missing" "Done").data = sampleBoard ∧
      (moveTask sampleBoard "2024-04-05T00:00:00Z" "missing" "Done").trace = []) ∧
    ((updateTask sampleBoard "2024-04-05T00:00:00Z" "missing" ⟨none, none, none, none⟩).data =
        sampleBoard ∧
      (updateTask sampleBoard "2024-04-05T00:00:00Z" "missing"
        ⟨none, none, none, none⟩).trace = []) ∧
    ((deleteTask sampleBoard "missing").data = sampleBoard ∧
      (deleteTask sampleBoard "missing").trace = []) ∧
    ((updateColumns sampleBoard "2024-04-05T00:00:00Z" []).data = sampleBoard ∧
      (updateColumns sampleBoard "2024-04-05T00:00:00Z" []).trace = []) :=
  ⟨store_error_all_or_nothing.1 sampleBoard "t4" "2024-04-05T00:00:00Z" "A task"
      none (some "Nope") none none .columnNotFound (by rfl),
   store_error_all_or_nothing.2.1 sampleBoard "2024-04-05T00:00:00Z" "missing" "Done"
      .taskNotFound (by rfl),
   store_error_all_or_nothing.2.2.1 sampleBoard "2024-04-05T00:00:00Z" "missing"
      ⟨none, none, none, none⟩ .taskNotFound (by rfl),
   store_error_all_or_nothing.2.2.2.1 sampleBoard "missing" .taskNotFound (by rfl),
   store_error_all_or_nothing.2.2.2.2 sampleBoard "2024-04-05T00:00:00Z" []
      .emptyColumns (by rfl)⟩

/-- C3 is false on the code as stated: the store's `createTask` performs no
title validation, so an empty-title call on the sample board succeeds and
appends a task with an empty title instead of failing. -/
theorem createTask_empty_title_accepted :
    (createTask sampleBoard "t2" "2024-01-02T00:00:00Z" "" none none none none).result =
      Except.ok
        { id := "t2", title := "", description := "", column := "Todo",
          priority := "P1", assignee := "", createdAt := "2024-01-02T00:00:00Z",
          updatedAt := "2024-01-02T00:00:00Z" } ∧
    (createTask sampleBoard "t2" "2024-01-02T00:00:00Z" "" none none none none).data.tasks =
      sampleBoard.tasks ++
        [{ id := "t2", title := "", description := "", column := "Todo",
           priority := "P1", assignee := "", createdAt := "2024-01-02T00:00:00Z",
           updatedAt := "2024-01-02T00:00:00Z" }] := by
  constructor <;> rfl

/-- C3 (amended): the store itself does not validate the title — an
empty-title `createTask` on a board with at least one column succeeds and
appends a task with an empty title; the non-empty-title validation lives in
the facades, e.g. the REST POST handler rejects a missing or
whitespace-only title with a 400 error before the store is touched. -/
theorem title_validation_in_facades :
    (∀ (data : KanbrawlData) (c0 : Column) (rest : List Column) (newId now : String),
      data.columns = c0 :: rest →
      ∃ t, (createTask data newId now "" none none none none).result = Except.ok t ∧
        t.title = "" ∧
        (createTask data newId now "" none none none none).data.tasks =
          data.tasks ++ [t]) ∧
    (∀ (data : KanbrawlData) (newId now : String) (body : CreateBody) (title : String),
      body.title = some title → (trimString title).isEmpty = true →
      apiCreateTask data newId now body = (ApiResponse.err 400, data, [])) ∧
    (∀ (data : KanbrawlData) (newId now : String) (body : CreateBody),
      body.title = none →
      apiCreateTask data newId now body = (ApiResponse.err 400, data, [])) := by
  refine ⟨?_, ?_, ?_⟩
  · intro data c0 rest newId now hcols
    simp only [createTask, hcols, columnNames, List.map_cons, List.head?_cons,
      Option.none_orElse]
    rw [if_pos (List.mem_cons_self _ _)]
    exact ⟨_, rfl, rfl, rfl⟩
  · intro data newId now body title hbody htrim
    simp only [apiCreateTask, hbody, htrim]
    simp
  · intro data newId now body hbody
    simp only [apiCreateTask, hbody]

/-- C6 is false on the code as stated: the `list_tasks` handler defaults an
omitted column argument to the first element of the column-name snapshot
captured once at registration, not to the live board's first column. With
the snapshot taken on the default board (first column "Todo") and the board
then changed so that "Backlog" is first while "Todo" is kept, a call with
the column omitted succeeds and returns the task of the stale "Todo"
default, although the live first column "Backlog" holds no task at all. -/
theorem list_tasks_stale_default :
    (columnNames (updateColumns sampleBoard "2024-10-10T00:00:00Z"
        [⟨"Backlog", none, none⟩, ⟨"Todo", none, none⟩]).data.columns).head? =
      some "Backlog" ∧
    filteredTasks (updateColumns sampleBoard "2024-10-10T00:00:00Z"
        [⟨"Backlog", none, none⟩, ⟨"Todo", none, none⟩]).data "Backlog" none none = [] ∧
    listTasks (columnNames sampleBoard.columns)
      (updateColumns sampleBoard "2024-10-10T00:00:00Z"
        [⟨"Backlog", none, none⟩, ⟨"Todo", none, none⟩]).data
      none none none none = Except.ok [sampleTask] := by
  have hdata : (updateColumns sampleBoard "2024-10-10T00:00:00Z"
      [⟨"Backlog", none, none⟩, ⟨"Todo", none, none⟩]).data =
      { columns := [⟨"Backlog", "created", "asc"⟩, ⟨"Todo", "created", "asc"⟩],
        tasks := [sampleTask], theme := some "dark" } := by rfl
  refine ⟨by rw [hdata]; rfl, by rw [hdata]; rfl, ?_⟩
  rw [hdata]
  simp [listTasks, filteredTasks, getTasks, sampleBoard, sampleTask,
    columnNames, DEFAULT_COLUMNS]

/-- C6 (amended): a successful `list_tasks` call returns exactly the
filtered tasks of the target column — the first column of the
registration-time snapshot, not necessarily of the live board, when the
argument is omitted — after the optional exact-priority and
case-insensitive-assignee filters, arranged as a stable sort by priority
ascending then creation time ascending, truncated to at most `max` tasks
(10 when omitted): the sorted list is a permutation of the filtered tasks,
it is pairwise ordered, ties keep their original relative order, and the
result is its prefix of length at most the cap. -/
theorem list_tasks_spec (capturedNames : List String) (data : KanbrawlData)
    (column priority assignee : Option String) (max : Option Nat) (result : List Task)
    (hok : listTasks capturedNames data column priority assignee max = Except.ok result) :
    ∃ (targetColumn : String) (sorted : List Task),
      (column = some targetColumn ∨
        (column = none ∧ capturedNames.head? = some targetColumn)) ∧
      targetColumn ∈ columnNames data.columns ∧
      sorted.Perm (filteredTasks data targetColumn priority assignee) ∧
      sorted.Pairwise (fun a b => taskLe a b = true) ∧
      (∀ a b : Task, [a, b].Sublist (filteredTasks data targetColumn priority assignee) →
        taskLe a b = true → [a, b].Sublist sorted) ∧
      result = sorted.take (max.getD 10) := by
  simp only [listTasks] at hok
  cases column with
  | none =>
    simp only [Option.none_orElse] at hok
    rcases hhead : capturedNames.head? with _ | tc
    · simp [hhead] at hok
    · simp only [hhead] at hok
      by_cases hmem : tc ∈ columnNames data.columns
      · rw [if_pos hmem] at hok
        simp only [Except.ok.injEq] at hok
        refine ⟨tc, (filteredTasks data tc priority assignee).mergeSort taskLe,
          Or.inr ⟨rfl, rfl⟩, hmem, List.mergeSort_perm _ _,
          List.sorted_mergeSort taskLe_trans taskLe_total _,
          fun a b hab hle => List.pair_sublist_mergeSort taskLe_trans taskLe_total hle hab,
          hok.symm⟩
      · rw [if_neg hmem] at hok
        simp at hok
  | some tc =>
    simp only [Option.some_orElse] at hok
    by_cases hmem : tc ∈ columnNames data.columns
    · rw [if_pos hmem] at hok
      simp only [Except.ok.injEq] at hok
      exact ⟨tc, (filteredTasks data tc priority assignee).mergeSort taskLe,
        Or.inl rfl, hmem, List.mergeSort_perm _ _,
        List.sorted_mergeSort taskLe_trans taskLe_total _,
        fun a b hab hle => List.pair_sublist_mergeSort taskLe_trans taskLe_total hle hab,
        hok.symm⟩
    · rw [if_neg hmem] at hok
      simp at hok

/-- Witness for C6: a one-task board listed with every argument omitted. -/
theorem list_tasks_spec_witness :
    ∃ (targetColumn : String) (sorted : List Task),
      ((none : Option String) = some targetColumn ∨
        ((none : Option String) = none ∧
          (columnNames sampleBoard.columns).head? = some targetColumn)) ∧
      targetColumn ∈ columnNames sampleBoard.columns ∧
      sorted.Perm (filteredTasks sampleBoard targetColumn none none) ∧
      sorted.Pairwise (fun a b => taskLe a b = true) ∧
      (∀ a b : Task, [a, b].Sublist (filteredTasks sampleBoard targetColumn none none) →
        taskLe a b = true → [a, b].Sublist sorted) ∧
      [sampleTask] = sorted.take ((none : Option Nat).getD 10) :=
  list_tasks_spec (columnNames sampleBoard.columns) sampleBoard none none none none
    [sampleTask]
    (by simp [listTasks, filteredTasks, getTasks, sampleBoard, sampleTask,
      columnNames, DEFAULT_COLUMNS])

/-- C4: a successful `updateColumns` call yields a non-empty new column set
whose first element is the reassignment target: every task whose column name
was removed ends in the new first column with its `updatedAt` refreshed, all
other tasks are unchanged, and the whole operation performs exactly one save
followed by exactly one `columns_updated` event — no task-level events. -/
theorem updateColumns_reassigns_removed (data : KanbrawlData) (now : String)
    (cols : List ColumnInput) (l : List Column)
    (hok : (updateColumns data now cols).result = Except.ok l) :
    ∃ c0 cs, l = c0 :: cs ∧
      (updateColumns data now cols).data.columns = l ∧
      (updateColumns data now cols).data.tasks =
        data.tasks.map (fun t =>
          if (removedColumnNames data.columns l).contains t.column then
            { t with column := c0.name, updatedAt := now }
          else t) ∧
      (updateColumns data now cols).trace =
        [Action.save (updateColumns data now cols).data,
         Action.emit (BoardEvent.columns_updated l)] := by
  simp only [updateColumns] at hok ⊢
  by_cases hempty : cols.isEmpty
  · rw [if_pos hempty] at hok
    simp at hok
  · simp only [if_neg hempty] at hok ⊢
    rcases hf : (cols.map processColumn).filter (fun c => 0 < c.name.length) with _ | ⟨p, ps⟩
    · simp [hf] at hok
    · simp only [hf] at hok ⊢
      simp only [Except.ok.injEq] at hok
      subst hok
      refine ⟨p, dedupeColumns ps [p.name], rfl, rfl, ?_, rfl⟩
      by_cases hrm : (removedColumnNames data.columns (p :: dedupeColumns ps [p.name])).isEmpty
      · rw [if_pos hrm]
        have hnil : removedColumnNames data.columns (p :: dedupeColumns ps [p.name]) = [] :=
          List.isEmpty_iff.mp hrm
        rw [hnil]
        simp
      · rw [if_neg hrm]

/-- Witness for C4: removing the default columns in favour of a single new
column reassigns the sample task to it. -/
theorem updateColumns_reassigns_removed_witness :
    ∃ c0 cs, ([⟨"Next", "created", "asc"⟩] : List Column) = c0 :: cs ∧
      (updateColumns sampleBoard "2024-07-07T00:00:00Z" [⟨"Next", none, none⟩]).data.columns =
        [⟨"Next", "created", "asc"⟩] ∧
      (updateColumns sampleBoard "2024-07-07T00:00:00Z" [⟨"Next", none, none⟩]).data.tasks =
        sampleBoard.tasks.map (fun t =>
          if (removedColumnNames sampleBoard.columns
              [⟨"Next", "created", "asc"⟩]).contains t.column then
            { t with column := c0.name, updatedAt := "2024-07-07T00:00:00Z" }
          else t) ∧
      (updateColumns sampleBoard "2024-07-07T00:00:00Z" [⟨"Next", none, none⟩]).trace =
        [Action.save (updateColumns sampleBoard "2024-07-07T00:00:00Z"
            [⟨"Next", none, none⟩]).data,
         Action.emit (BoardEvent.columns_updated [⟨"Next", "created", "asc"⟩])] :=
  updateColumns_reassigns_removed sampleBoard "2024-07-07T00:00:00Z"
    [⟨"Next", none, none⟩] [⟨"Next", "created", "asc"⟩] (by rfl)

/-- C7 is false on the code as stated: for a combined CLI update that
changes both the column and the description, the effect trace shows the
`task_updated` save and emit strictly before the `task_moved` ones — the CLI
facade invokes `updateTask` first and `moveTask` second — and the final
stored task's `updatedAt` is the move's timestamp, not the field update's. -/
theorem cli_combined_update_order :
    (cliTaskUpdate sampleBoard "2024-08-08T00:00:00Z" "2024-08-08T00:00:05Z" "Fix bug"
        ⟨some "new desc", some "Done", none, none⟩).2.2 =
      [Action.save { sampleBoard with tasks := [{ sampleTask with description := "new desc", updatedAt := "2024-08-08T00:00:00Z" }] },
       Action.emit (BoardEvent.task_updated { sampleTask with description := "new desc", updatedAt := "2024-08-08T00:00:00Z" }),
       Action.save { sampleBoard with tasks := [{ sampleTask with description := "new desc", column := "Done", updatedAt := "2024-08-08T00:00:05Z" }] },
       Action.emit (BoardEvent.task_moved { sampleTask with description := "new desc", column := "Done", updatedAt := "2024-08-08T00:00:05Z" } "Todo")] ∧
    getTask (cliTaskUpdate sampleBoard "2024-08-08T00:00:00Z" "2024-08-08T00:00:05Z"
        "Fix bug" ⟨some "new desc", some "Done", none, none⟩).2.1 "t1" =
      some { sampleTask with description := "new desc", column := "Done", updatedAt := "2024-08-08T00:00:05Z" } := by
  constructor <;> rfl

/-- C7 (amended): the REST PATCH facade applies `moveTask` before
`updateTask`, so there the final `updatedAt` is the field update's
timestamp; the CLI direct-call facade applies `updateTask` first and
`moveTask` second, so for a combined CLI request the final observable
`updatedAt` is the one set by the move. -/
theorem patch_order_by_facade :
    (∀ (data : KanbrawlData) (nowMove nowUpdate id : String) (body : PatchBody)
        (col : String) (t : Task),
      body.column = some col → hasFieldChange body = true →
      (apiPatchTask data nowMove nowUpdate id body).1 = ApiResponse.ok t →
      t.updatedAt = nowUpdate ∧
      ∃ d1 t1 fc d2,
        (apiPatchTask data nowMove nowUpdate id body).2.2 =
          [Action.save d1, Action.emit (BoardEvent.task_moved t1 fc),
           Action.save d2, Action.emit (BoardEvent.task_updated t)]) ∧
    (∀ (data : KanbrawlData) (nowUpdate nowMove title : String) (options : TaskOptions)
        (col : String) (t : Task) (final : KanbrawlData) (tr : List Action),
      options.column = some col → col.isEmpty = false →
      cliTaskUpdate data nowUpdate nowMove title options = (Except.ok t, final, tr) →
      ∃ d1 t1 d2 t2 fc,
        tr = [Action.save d1, Action.emit (BoardEvent.task_updated t1),
              Action.save d2, Action.emit (BoardEvent.task_moved t2 fc)] ∧
        t2.updatedAt = nowMove ∧
        getTask final t2.id = some t2) := by
  constructor
  · intro data nowMove nowUpdate id body col t hcol hfield hok
    simp only [apiPatchTask, hcol] at hok ⊢
    rcases hmv : (moveTask data nowMove id col).result with e | t1
    · simp [hmv] at hok
    · simp only [hmv] at hok ⊢
      rw [if_pos hfield] at hok ⊢
      rcases hup : (updateTask (moveTask data nowMove id col).data nowUpdate id
          ⟨body.title, body.description, body.priority, body.assignee⟩).result with e | t2
      · simp [hup] at hok
      · simp only [hup] at hok ⊢
        simp only [ApiResponse.ok.injEq] at hok
        subst hok
        obtain ⟨hupd, htr2⟩ := updateTask_ok_facts _ _ _ _ _ hup
        obtain ⟨-, -, -, fc, htr1⟩ := moveTask_ok_facts _ _ _ _ _ hmv
        refine ⟨hupd, (moveTask data nowMove id col).data, t1, fc,
          (updateTask (moveTask data nowMove id col).data nowUpdate id
            ⟨body.title, body.description, body.priority, body.assignee⟩).data, ?_⟩
        rw [htr1, htr2]
        rfl
  · intro data nowUpdate nowMove title options col t final tr hcol hcole hcall
    simp only [cliTaskUpdate, hcol] at hcall
    rcases hfind : data.tasks.find?
        (fun x => toLowerString x.title == toLowerString title) with _ | existing
    · simp [hfind] at hcall
    · simp only [hfind] at hcall
      rcases hup : (updateTask data nowUpdate existing.id
          ⟨none, options.description, cliPriority options.priority,
           options.assignee⟩).result with e | t1
      · simp [hup] at hcall
      · simp only [hup] at hcall
        rw [if_neg (by simp [hcole])] at hcall
        rcases hmv : (moveTask (updateTask data nowUpdate existing.id
            ⟨none, options.description, cliPriority options.priority,
             options.assignee⟩).data nowMove existing.id col).result with e | t2
        · simp [hmv] at hcall
        · simp only [hmv, Prod.mk.injEq] at hcall
          obtain ⟨-, hdata, htr⟩ := hcall
          obtain ⟨-, htr1⟩ := updateTask_ok_facts _ _ _ _ _ hup
          obtain ⟨hupd2, hid2, hget, fc, htr2⟩ := moveTask_ok_facts _ _ _ _ _ hmv
          refine ⟨(updateTask data nowUpdate existing.id
              ⟨none, options.description, cliPriority options.priority,
               options.assignee⟩).data, t1,
            (moveTask (updateTask data nowUpdate existing.id
              ⟨none, options.description, cliPriority options.priority,
               options.assignee⟩).data nowMove existing.id col).data, t2, fc,
            ?_, hupd2, ?_⟩
          · rw [← htr, htr1, htr2]
            rfl
          · rw [← hdata, hid2]
            exact hget

/-- Witness for the amended C7: both conjuncts applied at a concrete
board — a REST patch moving the sample task to "Done" while changing its
description, and the equivalent combined CLI update. -/
theorem patch_order_by_facade_witness :
    (∃ d1 t1 fc d2,
      (apiPatchTask sampleBoard "2024-09-09T00:00:00Z" "2024-09-09T00:00:01Z" "t1"
          ⟨none, some "d2", some "Done", none, none⟩).2.2 =
        [Action.save d1, Action.emit (BoardEvent.task_moved t1 fc),
         Action.save d2,
         Action.emit (BoardEvent.task_updated { sampleTask with description := "d2", column := "Done", updatedAt := "2024-09-09T00:00:01Z" })]) ∧
    (∃ d1 t1 d2 t2 fc,
      (cliTaskUpdate sampleBoard "2024-09-09T00:00:02Z" "2024-09-09T00:00:03Z" "Fix bug"
          ⟨some "d3", some "Done", none, none⟩).2.2 =
        [Action.save d1, Action.emit (BoardEvent.task_updated t1),
         Action.save d2, Action.emit (BoardEvent.task_moved t2 fc)] ∧
      t2.updatedAt = "2024-09-09T00:00:03Z" ∧
      getTask (cliTaskUpdate sampleBoard "2024-09-09T00:00:02Z" "2024-09-09T00:00:03Z"
          "Fix bug" ⟨some "d3", some "Done", none, none⟩).2.1 t2.id = some t2) := by
  refine ⟨?_, ?_⟩
  · exact (patch_order_by_facade.1 sampleBoard "2024-09-09T00:00:00Z"
      "2024-09-09T00:00:01Z" "t1" ⟨none, some "d2", some "Done", none, none⟩ "Done"
      { sampleTask with description := "d2", column := "Done", updatedAt := "2024-09-09T00:00:01Z" } rfl rfl (by rfl)).2
  · exact patch_order_by_facade.2 sampleBoard "2024-09-09T00:00:02Z"
      "2024-09-09T00:00:03Z" "Fix bug" ⟨some "d3", some "Done", none, none⟩ "Done"
      { sampleTask with description := "d3", updatedAt := "2024-09-09T00:00:02Z" }
      (cliTaskUpdate sampleBoard "2024-09-09T00:00:02Z" "2024-09-09T00:00:03Z" "Fix bug"
        ⟨some "d3", some "Done", none, none⟩).2.1
      (cliTaskUpdate sampleBoard "2024-09-09T00:00:02Z" "2024-09-09T00:00:03Z" "Fix bug"
        ⟨some "d3", some "Done", none, none⟩).2.2
      rfl rfl (by rfl)

/-- Witness for the amended C3 at concrete inputs. -/
theorem title_validation_in_facades_witness :
    (∃ t, (createTask sampleBoard "t9" "2024-03-03T00:00:00Z" "" none none none none).result =
        Except.ok t ∧
      t.title = "" ∧
      (createTask sampleBoard "t9" "2024-03-03T00:00:00Z" "" none none none none).data.tasks =
        sampleBoard.tasks ++ [t]) ∧
    apiCreateTask sampleBoard "t9" "2024-03-03T00:00:00Z" ⟨some "  ", none, none, none, none⟩ =
      (ApiResponse.err 400, sampleBoard, []) :=
  ⟨title_validation_in_facades.1 sampleBoard ⟨"Todo", "priority", "asc"⟩
      [⟨"In progress", "created", "asc"⟩, ⟨"Blocked", "created", "asc"⟩,
       ⟨"Done", "updated", "desc"⟩] "t9" "2024-03-03T00:00:00Z" rfl,
   title_validation_in_facades.2.1 sampleBoard "t9" "2024-03-03T00:00:00Z"
      ⟨some "  ", none, none, none, none⟩ "  " rfl (by decide)⟩

end Kanbrawl
